import Mathlib

/-!
Verification of the web-console terminal server (Go package `terminal`).

Shallow embedding conventions:
* A Go byte string (`[]byte`) is a `List Nat` whose elements are byte
  values; machine integers are `Nat` with explicit `% 2^w` wherever the Go
  code performs wrapping arithmetic (notably `uint16` addition).
* Fallible functions return `Except` or a dedicated result type; a Go
  runtime panic (slice bounds out of range) is a distinct constructor.
* Stateful code (the PTY handle, the per-connection session, the handler
  registry) is explicit state passing.  External side effects (frames sent
  to the peer, bytes reaching the PTY master, signals reaching the child)
  are recorded as an effect list.
* The behaviour of the operating system (results of reads on the PTY
  master, whether a raw write on the master fails) is a parameter of the
  model: read results are passed in as a list, and the flag
  `underlyingWriteErr` states that a raw `os.File.Write` on the master
  returns an error (for example EIO after the child exited).
-/

namespace WebConsole

/-! ## Frame codec (protocol part of the source)

Message type constants, from the Go `const` block. -/

def MsgTypeData : Nat := 0x01
def MsgTypeResize : Nat := 0x02
def MsgTypeControl : Nat := 0x03
def MsgTypeError : Nat := 0x04
def MsgTypeHeartbeat : Nat := 0x05
def MsgTypeClose : Nat := 0x06

/-- A decoded frame: `Message{Type MessageType; Data []byte}`. -/
structure Message where
  ty : Nat
  data : List Nat
deriving Repr, DecidableEq

/-- `ResizeData{Cols, Rows uint16}`. -/
structure ResizeData where
  cols : Nat
  rows : Nat
deriving Repr, DecidableEq

/-- `Message.Marshal`: rejects payloads longer than 0xFFFF, otherwise emits
`[type][len lo][len hi][payload]` with the length as little-endian uint16. -/
def marshalMessage (m : Message) : Except String (List Nat) :=
  if m.data.length > 0xFFFF then .error "message data too large"
  else .ok (m.ty :: m.data.length % 256 :: m.data.length / 256 % 256 :: m.data)

/-- Result of `UnmarshalMessage`.  `panic` is a Go runtime panic (slice
bounds out of range), which in this server crashes the process. -/
inductive UnmarshalResult where
  | ok (m : Message)
  | err (e : String)
  | panic
deriving Repr, DecidableEq

/-- `UnmarshalMessage`.  The Go code computes `3 + dataLen` in `uint16`
arithmetic (the untyped constant 3 is converted to `uint16`), so the sum
wraps modulo 65536; that wrapped value is used both in the length guard
`len(data) < int(3+dataLen)` and as the upper slice index in
`data[3 : 3+dataLen]`.  When the wrapped value is below 3 the slice
expression panics at run time. -/
def unmarshalMessage : List Nat → UnmarshalResult
  | t :: l0 :: l1 :: rest =>
    if 3 + rest.length < (3 + (l0 + 256 * l1)) % 65536 then .err "incomplete message"
    else if (3 + (l0 + 256 * l1)) % 65536 < 3 then .panic
    else .ok ⟨t, rest.take ((3 + (l0 + 256 * l1)) % 65536 - 3)⟩
  | _ => .err "message too short"

/-- `UnmarshalResizeData`: requires at least 4 bytes (`len(data) < 4` is
rejected), reads two little-endian uint16 values from the first four bytes
and ignores any trailing bytes.  There is no positivity check. -/
def unmarshalResizeData : List Nat → Except String ResizeData
  | b0 :: b1 :: b2 :: b3 :: _ => .ok ⟨b0 + 256 * b1, b2 + 256 * b3⟩
  | _ => .error "invalid resize data"

/-! ## PTY handle (pty part of the source) -/

/-- Error values returned by the PTY operations: `io.EOF`,
`io.ErrClosedPipe`, or an error coming from the operating system. -/
inductive PtyErr where
  | eof
  | closedPipe
  | ioError
deriving Repr, DecidableEq

/-- State of a `PTY` value.  `closed` is the Go `closed` flag;
`procPresent` states that `cmd.Process` is non-nil; `underlyingWriteErr`
states that a raw write on the master file fails (environment behaviour).
`written`, `resizes` and `signals` record what actually reached the master
and the child, in order. -/
structure PtyModel where
  closed : Bool
  procPresent : Bool
  underlyingWriteErr : Bool
  written : List Nat
  resizes : List (Nat × Nat)
  signals : List Nat
deriving Repr, DecidableEq

/-- `NewPTY` result when the spawn succeeds: live handle, process present,
nothing transferred yet. -/
def newPTY : PtyModel :=
  { closed := false, procPresent := true, underlyingWriteErr := false
    written := [], resizes := [], signals := [] }

/-- `PTY.Read`: returns `(0, io.EOF)` when the handle is closed, otherwise
whatever the underlying master read returns. -/
def ptyRead (p : PtyModel) (underlying : Except PtyErr (List Nat)) :
    Except PtyErr (List Nat) :=
  if p.closed then .error .eof else underlying

/-- `PTY.Write`: `io.ErrClosedPipe` when closed, otherwise the underlying
write either fails (environment) or appends the bytes to the master. -/
def ptyWrite (p : PtyModel) (d : List Nat) : Except PtyErr PtyModel :=
  if p.closed then .error .closedPipe
  else if p.underlyingWriteErr then .error .ioError
  else .ok { p with written := p.written ++ d }

/-- `PTY.Resize`: `io.ErrClosedPipe` when closed, otherwise applies the
size to the master. -/
def ptyResize (p : PtyModel) (cols rows : Nat) : Except PtyErr PtyModel :=
  if p.closed then .error .closedPipe
  else .ok { p with resizes := p.resizes ++ [(cols, rows)] }

/-- `PTY.SendSignal` (POSIX branch): `io.ErrClosedPipe` when closed or the
process is absent, otherwise delivers the signal to the child. -/
def ptySendSignal (p : PtyModel) (sig : Nat) : Except PtyErr PtyModel :=
  if p.closed || !p.procPresent then .error .closedPipe
  else .ok { p with signals := p.signals ++ [sig] }

/-! ## Session and handler (handler part of the source) -/

/-- The distinct Go error values that the session can report to the peer
inside an ERROR frame. -/
inductive ErrInfo where
  | noPty
  | badControl
  | badResize
  | ptyWriteFailed (e : PtyErr)
  | ptyResizeFailed (e : PtyErr)
  | ptySignalFailed (e : PtyErr)
  | ptyReadFailed (e : PtyErr)
  | unknownType (t : Nat)
deriving Repr, DecidableEq

/-- Externally visible effects of the session machinery, in program order:
frames sent to the peer, PTY creation, the session cancel function firing,
and the resource releases performed by `PTY.Close` and `Session.cleanup`. -/
inductive Eff where
  | sentData (bs : List Nat)
  | sentError (e : ErrInfo)
  | cancelFired
  | ptyCreated
  | ptyCancelFired
  | masterClosed
  | childTermRequested
  | connClosed
deriving Repr, DecidableEq

/-- `PTY.Close`: a second close returns immediately with no effect;
the first close sets the flag, fires the PTY context cancel, closes the
master and requests termination of the child (SIGTERM on POSIX). -/
def ptyClose (p : PtyModel) : PtyModel × List Eff :=
  if p.closed then (p, [])
  else ({ p with closed := true },
        [.ptyCancelFired, .masterClosed, .childTermRequested])

/-- State of a `Session`: the lazily created PTY, whether the session
context has been cancelled, and the `closeOnce` guard of `cleanup`. -/
structure SessionSt where
  pty : Option PtyModel
  cancelled : Bool
  cleanedUp : Bool
deriving Repr, DecidableEq

def initSession : SessionSt :=
  { pty := none, cancelled := false, cleanedUp := false }

/-- The shared prologue of `handleData` and `handleResize`: when no PTY
exists, create one with default size (80, 24) and spawn the pump.  The
model takes the successful-spawn branch of `NewPTY`; spawn failure is an
environment condition not needed by the claims treated here. -/
def ensurePty (s : SessionSt) : SessionSt × PtyModel × List Eff :=
  match s.pty with
  | some p => (s, p, [])
  | none => ({ s with pty := some newPTY }, newPTY, [.ptyCreated])

/-- `Session.handleData`: ensure the PTY exists, then write the payload to
it; a write error is returned to the caller (the reader loop). -/
def handleData (s : SessionSt) (d : List Nat) :
    SessionSt × List Eff × Option ErrInfo :=
  let r := ensurePty s
  match ptyWrite r.2.1 d with
  | .error e => (r.1, r.2.2, some (.ptyWriteFailed e))
  | .ok p2 => ({ r.1 with pty := some p2 }, r.2.2, none)

/-- `Session.handleResize`: ensure the PTY exists (this happens before the
payload is decoded, so a malformed payload still creates the PTY), decode
the payload, apply the resize. -/
def handleResize (s : SessionSt) (d : List Nat) :
    SessionSt × List Eff × Option ErrInfo :=
  let r := ensurePty s
  match unmarshalResizeData d with
  | .error _ => (r.1, r.2.2, some .badResize)
  | .ok rd =>
    match ptyResize r.2.1 rd.cols rd.rows with
    | .error e => (r.1, r.2.2, some (.ptyResizeFailed e))
    | .ok p2 => ({ r.1 with pty := some p2 }, r.2.2, none)

/-- `Session.handleControl`: no PTY is an error (and none is created); an
empty payload is an error; otherwise the first octet is delivered to the
child as a signal. -/
def handleControl (s : SessionSt) (d : List Nat) :
    SessionSt × List Eff × Option ErrInfo :=
  match s.pty with
  | none => (s, [], some .noPty)
  | some p =>
    match d with
    | [] => (s, [], some .badControl)
    | b :: _ =>
      match ptySendSignal p b with
      | .error e => (s, [], some (.ptySignalFailed e))
      | .ok p2 => ({ s with pty := some p2 }, [], none)

/-- The `switch msg.Type` of `Session.handleMessage`, applied to an
already decoded frame.  HEARTBEAT is a no-op; CLOSE fires the session
cancel; every other type (including 0x04) is an unknown-type error. -/
def dispatchMessage (s : SessionSt) (m : Message) :
    SessionSt × List Eff × Option ErrInfo :=
  if m.ty = MsgTypeData then handleData s m.data
  else if m.ty = MsgTypeResize then handleResize s m.data
  else if m.ty = MsgTypeControl then handleControl s m.data
  else if m.ty = MsgTypeHeartbeat then (s, [], none)
  else if m.ty = MsgTypeClose then ({ s with cancelled := true }, [.cancelFired], none)
  else (s, [], some (.unknownType m.ty))

/-- One iteration of the reader loop body: dispatch the frame; when the
handler returned an error, send an ERROR frame to the peer and keep the
(possibly updated) state.  The loop then continues. -/
def loopStep (s : SessionSt) (m : Message) : SessionSt × List Eff :=
  let r := dispatchMessage s m
  match r.2.2 with
  | none => (r.1, r.2.1)
  | some e => (r.1, r.2.1 ++ [.sentError e])

/-- The reader loop of `Session.handleConnection`, applied to the sequence
of decoded frames received from the peer: on each iteration the
non-blocking select returns as soon as the session context is cancelled,
otherwise the next frame is handled. -/
def processLoop (s : SessionSt) : List Message → SessionSt × List Eff
  | [] => (s, [])
  | m :: ms =>
    if s.cancelled then (s, [])
    else
      let r := loopStep s m
      let r2 := processLoop r.1 ms
      (r2.1, r.2 ++ r2.2)

/-- The body of `Session.readFromPTY` after the nil check, driven by the
sequence of results the underlying master read would produce.  An EOF
error returns silently; any other read error sends one ERROR frame and
returns; nonempty reads are forwarded as DATA frames.  The source contains
no call of the session cancel function on any of these paths, so the
session state is returned unchanged. -/
def pumpLoop (s : SessionSt) (p : PtyModel) :
    List (Except PtyErr (List Nat)) → SessionSt × List Eff
  | [] => (s, [])
  | r :: rs =>
    if s.cancelled then (s, [])
    else
      match ptyRead p r with
      | .error e => if e = .eof then (s, []) else (s, [.sentError (.ptyReadFailed e)])
      | .ok bs =>
        if 0 < bs.length then
          let r2 := pumpLoop s p rs
          (r2.1, .sentData bs :: r2.2)
        else pumpLoop s p rs

/-- `Session.readFromPTY`: returns immediately when no PTY exists. -/
def readFromPTY (s : SessionSt) (reads : List (Except PtyErr (List Nat))) :
    SessionSt × List Eff :=
  match s.pty with
  | none => (s, [])
  | some p => pumpLoop s p reads

/-- `Handler`: the registry of live sessions (`sessions sync.Map`), keyed
here by a session identifier. -/
structure HandlerSt where
  sessions : List Nat
deriving Repr, DecidableEq

/-- `Handler.ServeHTTP` after a successful upgrade: create the session,
store it in the registry, spawn the driver. -/
def serveHTTP (h : HandlerSt) (sid : Nat) : HandlerSt × SessionSt :=
  ({ sessions := sid :: h.sessions }, initSession)

/-- `Session.cleanup`: under the `closeOnce` guard, fire the session
cancel, close the PTY if present, close the connection.  The source
performs no registry removal here, and the `Session` struct holds no
reference to the `Handler`, so no `HandlerSt` argument appears. -/
def cleanup (s : SessionSt) : SessionSt × List Eff :=
  if s.cleanedUp then (s, [])
  else
    match s.pty with
    | some p =>
      let r := ptyClose p
      ({ s with cancelled := true, cleanedUp := true, pty := some r.1 },
       .cancelFired :: r.2 ++ [.connClosed])
    | none =>
      ({ s with cancelled := true, cleanedUp := true },
       [.cancelFired, .connClosed])

/-- A whole session lifecycle as driven by the handler: registration via
`ServeHTTP`, the reader loop over the received frames, then `cleanup`
(run by the `defer` when the loop returns).  The handler registry is
returned alongside the final session state. -/
def runSession (h : HandlerSt) (sid : Nat) (msgs : List Message) :
    HandlerSt × SessionSt × List Eff :=
  let hs := serveHTTP h sid
  let r1 := processLoop hs.2 msgs
  let r2 := cleanup r1.1
  (hs.1, r2.1, r1.2 ++ r2.2)

/-- Payloads of the DATA frames in an effect list, in order. -/
def dataPayloads (effs : List Eff) : List (List Nat) :=
  effs.filterMap fun e =>
    match e with
    | .sentData bs => some bs
    | _ => none

/-- A payload of 65533 zero bytes: encoding it succeeds, decoding the
result panics because 3 + 65533 wraps to 0 in uint16 arithmetic. -/
def bigPayload : List Nat := List.replicate 65533 0

/-- Length of the 65533-byte payload. -/
theorem bigPayload_length : bigPayload.length = 65533 := by
  simp only [bigPayload, List.length_replicate]

/-- Encoding succeeds on any payload within the 65535-byte bound and
produces the header followed by the payload. -/
theorem marshal_ok_of_le (ty : Nat) (pl : List Nat) (h : pl.length ≤ 65535) :
    marshalMessage ⟨ty, pl⟩ =
      .ok (ty :: pl.length % 256 :: pl.length / 256 % 256 :: pl) := by
  simp only [marshalMessage]
  rw [if_neg (by omega)]

/-- A session whose PTY is live but whose master writes fail at the
operating-system level. -/
def failingWriteSession : SessionSt :=
  { pty := some { newPTY with underlyingWriteErr := true }
    cancelled := false, cleanedUp := false }

/-- A session with a freshly created live PTY. -/
def livePtySession : SessionSt :=
  { pty := some newPTY, cancelled := false, cleanedUp := false }

/-! ## Theorems -/

/-- Claim C1 (code bug): after a complete session lifecycle — registration
by `ServeHTTP`, a CLOSE frame from the peer, and `cleanup` running to
completion — the session is still present in the handler registry, because
`Session.cleanup` only fires the cancel, closes the PTY and closes the
connection; it never removes the session from `Handler.sessions`, and the
`Session` struct holds no reference to the `Handler` with which it could.
The claim (and the spec cleanup sequence) say the session is absent from
the registry once cleanup has run. -/
theorem C1_cleanup_leaves_session_in_registry :
    (runSession ⟨[]⟩ 7 [⟨MsgTypeClose, []⟩]).1.sessions = [7] ∧
    (runSession ⟨[]⟩ 7 [⟨MsgTypeClose, []⟩]).2.1.cleanedUp = true ∧
    (runSession ⟨[]⟩ 7 [⟨MsgTypeClose, []⟩]).2.1.cancelled = true :=
  ⟨rfl, rfl, rfl⟩

/-- Claim C2, counterexample: a DATA frame whose PTY write fails does not
close the session.  At this concrete session state the loop body merely
sends one ERROR frame and leaves the state unchanged (in particular the
cancel is not fired: `cancelled` is still `false`), and the loop goes on
to process the next frame (the subsequent CLOSE is handled). -/
theorem C2_write_error_does_not_close :
    loopStep failingWriteSession ⟨MsgTypeData, [104]⟩ =
      (failingWriteSession, [.sentError (.ptyWriteFailed .ioError)]) ∧
    failingWriteSession.cancelled = false ∧
    (processLoop failingWriteSession
      [⟨MsgTypeData, [104]⟩, ⟨MsgTypeClose, []⟩]).1.cancelled = true :=
  ⟨rfl, rfl, rfl⟩

/-- Claim C2, amended: when a DATA frame payload write to the PTY fails,
the session reports the failure to the peer as an ERROR frame and the
reader loop continues; the session state is unchanged and the cancel is
not fired (no transition to Draining). -/
theorem C2_write_error_reports_and_continues
    (s : SessionSt) (p : PtyModel) (d : List Nat) (ms : List Message)
    (hp : s.pty = some p) (hc : p.closed = false)
    (hw : p.underlyingWriteErr = true) (hcan : s.cancelled = false) :
    loopStep s ⟨MsgTypeData, d⟩ = (s, [.sentError (.ptyWriteFailed .ioError)]) ∧
    processLoop s (⟨MsgTypeData, d⟩ :: ms) =
      ((processLoop s ms).1,
        .sentError (.ptyWriteFailed .ioError) :: (processLoop s ms).2) := by
  have hstep : loopStep s ⟨MsgTypeData, d⟩ =
      (s, [.sentError (.ptyWriteFailed .ioError)]) := by
    simp [loopStep, dispatchMessage, MsgTypeData, handleData, ensurePty, hp,
      ptyWrite, hc, hw]
  refine ⟨hstep, ?_⟩
  simp [processLoop, hcan, hstep]

/-- Witness for `C2_write_error_reports_and_continues` at a concrete
session and frame. -/
theorem C2_write_error_reports_and_continues_witness :
    loopStep failingWriteSession ⟨MsgTypeData, [104, 105]⟩ =
      (failingWriteSession, [.sentError (.ptyWriteFailed .ioError)]) ∧
    processLoop failingWriteSession (⟨MsgTypeData, [104, 105]⟩ :: [⟨MsgTypeClose, []⟩]) =
      ((processLoop failingWriteSession [⟨MsgTypeClose, []⟩]).1,
        .sentError (.ptyWriteFailed .ioError) ::
          (processLoop failingWriteSession [⟨MsgTypeClose, []⟩]).2) :=
  C2_write_error_reports_and_continues failingWriteSession
    { newPTY with underlyingWriteErr := true } [104, 105] [⟨MsgTypeClose, []⟩]
    rfl rfl rfl rfl

/-- Claim C3, counterexample: at this concrete live session, a clean EOF
from the PTY master makes the pump return with no effects at all — no
ERROR frame is sent (that part of the claim holds), but the session cancel
is not fired either: the state comes back unchanged with `cancelled`
still `false`, so the session does not transition to Draining. -/
theorem C3_eof_does_not_fire_cancel :
    readFromPTY livePtySession [Except.error PtyErr.eof] = (livePtySession, []) ∧
    livePtySession.cancelled = false :=
  ⟨rfl, rfl⟩

/-- Claim C3, amended: when the pump observes a clean EOF from the PTY
master, it exits immediately without sending an ERROR frame, and the
session state is unchanged — in particular the session cancel is not
fired, so the session does not transition to Draining (the source of
`readFromPTY` contains no call of the cancel function). -/
theorem C3_eof_exits_silently
    (s : SessionSt) (p : PtyModel) (rs : List (Except PtyErr (List Nat)))
    (hp : s.pty = some p) (hc : p.closed = false) (hcan : s.cancelled = false) :
    readFromPTY s (Except.error PtyErr.eof :: rs) = (s, []) := by
  simp [readFromPTY, hp, pumpLoop, hcan, ptyRead, hc]

/-- Witness for `C3_eof_exits_silently` at a concrete session. -/
theorem C3_eof_exits_silently_witness :
    readFromPTY livePtySession (Except.error PtyErr.eof :: [Except.ok [104]]) =
      (livePtySession, []) :=
  C3_eof_exits_silently livePtySession newPTY [Except.ok [104]] rfl rfl rfl

/-- Claim C4, counterexample: a five-byte resize payload is consumed
successfully (the length needs only to be at least 4, not exactly 4), and
a payload carrying cols = 0 and rows = 0 is not rejected — decoding
returns the zero dimensions and the session applies them to the PTY. -/
theorem C4_resize_accepts_long_and_zero :
    unmarshalResizeData [0, 0, 0, 0, 0] = .ok ⟨0, 0⟩ ∧
    (loopStep livePtySession ⟨MsgTypeResize, [0, 0, 0, 0]⟩).1.pty =
      some { newPTY with resizes := [(0, 0)] } :=
  ⟨rfl, rfl⟩

/-- Claim C4, amended: a RESIZE payload is consumed successfully exactly
when its length is at least 4; the first four bytes are decoded as two
little-endian uint16 values with no positivity check (trailing bytes are
ignored), and a payload shorter than 4 bytes is the only rejection. -/
theorem C4_resize_decode_characterization :
    (∀ b0 b1 b2 b3 : Nat, ∀ rest : List Nat,
      unmarshalResizeData (b0 :: b1 :: b2 :: b3 :: rest) =
        .ok ⟨b0 + 256 * b1, b2 + 256 * b3⟩) ∧
    (∀ d : List Nat, d.length < 4 →
      unmarshalResizeData d = .error "invalid resize data") := by
  refine ⟨fun b0 b1 b2 b3 rest => rfl, fun d hd => ?_⟩
  match d with
  | [] => rfl
  | [_] => rfl
  | [_, _] => rfl
  | [_, _, _] => rfl
  | _ :: _ :: _ :: _ :: _ => simp at hd; omega

/-- Witness for `C4_resize_decode_characterization` at concrete payloads. -/
theorem C4_resize_decode_characterization_witness :
    unmarshalResizeData [132, 0, 50, 0, 9] = .ok ⟨132, 50⟩ ∧
    unmarshalResizeData [1, 0, 2] = .error "invalid resize data" :=
  ⟨C4_resize_decode_characterization.1 132 0 50 0 [9],
   C4_resize_decode_characterization.2 [1, 0, 2] (by decide)⟩

/-- Claim C5, counterexample: a payload of 65533 bytes is within the
65535-byte bound, and encoding it succeeds, but decoding the encoded frame
does not return the pair — it panics, because the length computation
3 + 65533 wraps to 0 in uint16 arithmetic and the slice expression
`data[3:0]` is out of bounds. -/
theorem C5_roundtrip_breaks_at_65533 :
    marshalMessage ⟨MsgTypeData, bigPayload⟩ =
      .ok (MsgTypeData :: 253 :: 255 :: bigPayload) ∧
    unmarshalMessage (MsgTypeData :: 253 :: 255 :: bigPayload) = .panic := by
  constructor
  · rw [marshal_ok_of_le MsgTypeData bigPayload (by rw [bigPayload_length]; norm_num),
      bigPayload_length]
  · simp only [unmarshalMessage]
    have h0 : (3 + (253 + 256 * 255)) % 65536 = 0 := by norm_num
    rw [h0, if_neg (Nat.not_lt_zero _), if_pos (by norm_num)]

/-- Claim C5, amended: for every type and every payload of length at most
65532, decoding the encoding yields back exactly the same pair and the
encoded frame has total length 3 + |payload|.  (For lengths 65533..65535
encoding still succeeds but decoding panics on the uint16 wrap.) -/
theorem C5_roundtrip_upto_65532 (ty : Nat) (pl : List Nat)
    (h : pl.length ≤ 65532) :
    marshalMessage ⟨ty, pl⟩ =
      .ok (ty :: pl.length % 256 :: pl.length / 256 % 256 :: pl) ∧
    unmarshalMessage (ty :: pl.length % 256 :: pl.length / 256 % 256 :: pl) =
      .ok ⟨ty, pl⟩ ∧
    (ty :: pl.length % 256 :: pl.length / 256 % 256 :: pl).length =
      3 + pl.length := by
  refine ⟨?_, ?_, ?_⟩
  · simp only [marshalMessage]
    rw [if_neg (by omega)]
  · have hm : (3 + (pl.length % 256 + 256 * (pl.length / 256 % 256))) % 65536 =
        3 + pl.length := by omega
    simp only [unmarshalMessage, hm]
    rw [if_neg (by omega), if_neg (by omega)]
    simp
  · simp only [List.length_cons]
    omega

/-- Witness for `C5_roundtrip_upto_65532` at a concrete frame. -/
theorem C5_roundtrip_upto_65532_witness :
    marshalMessage ⟨1, [104, 105]⟩ = .ok (1 :: 2 :: 0 :: [104, 105]) ∧
    unmarshalMessage (1 :: 2 :: 0 :: [104, 105]) = .ok ⟨1, [104, 105]⟩ ∧
    (1 :: 2 :: 0 :: [104, 105] : List Nat).length = 3 + 2 :=
  C5_roundtrip_upto_65532 1 [104, 105] (by norm_num)

/-- Claim C6 (code bug): the three-byte input 0x01 0xFD 0xFF declares a
payload length of 65533, so the input is shorter than 3 plus the length
field and by the claim decoding must fail with TruncatedPayload; instead
the uint16 sum 3 + 65533 wraps to 0, the length guard passes vacuously,
and the slice `data[3:0]` panics, crashing the process. -/
theorem C6_decode_panics_instead_of_truncated :
    unmarshalMessage [MsgTypeData, 253, 255] = .panic ∧
    ([MsgTypeData, 253, 255] : List Nat).length < 3 + (253 + 256 * 255) :=
  ⟨rfl, by norm_num [MsgTypeData]⟩

/-- Claim C7, counterexample: after close, a read on the handle fails with
the EOF error — the same value a clean child exit produces, and the one
error the pump treats as clean EOF — while a write fails with the
closed-pipe error; the post-close failures are not one uniform PtyClosed
error as the claim states. -/
theorem C7_read_after_close_is_eof :
    ptyRead (ptyClose newPTY).1 (.ok [104]) = .error PtyErr.eof ∧
    ptyWrite (ptyClose newPTY).1 [104] = .error PtyErr.closedPipe ∧
    PtyErr.eof ≠ PtyErr.closedPipe :=
  ⟨rfl, rfl, by decide⟩

/-- Claim C7, amended: after close has run, every subsequent operation
fails without reaching the underlying master or child — write, resize and
signal fail with the closed-pipe error, while read fails with EOF — and a
second close is a no-op that leaves the state unchanged and performs no
release effects. -/
theorem C7_ops_after_close (p : PtyModel) (u : Except PtyErr (List Nat))
    (d : List Nat) (c r g : Nat) :
    ((ptyClose p).1).closed = true ∧
    ptyRead (ptyClose p).1 u = .error .eof ∧
    ptyWrite (ptyClose p).1 d = .error .closedPipe ∧
    ptyResize (ptyClose p).1 c r = .error .closedPipe ∧
    ptySendSignal (ptyClose p).1 g = .error .closedPipe ∧
    ptyClose (ptyClose p).1 = ((ptyClose p).1, []) := by
  rcases p with ⟨closed, proc, uw, w, rs, sg⟩
  cases closed <;>
    simp [ptyClose, ptyRead, ptyWrite, ptyResize, ptySendSignal]

/-- Claim C8: a CONTROL frame with no PTY reports the no-PTY error and
creates nothing (the state, including the absent PTY, is unchanged); a
CONTROL frame with an empty payload on a session owning a PTY is rejected
as bad control data; a CONTROL frame with a live PTY, a present child
process and at least one payload octet delivers the first octet to the
child as a signal. -/
theorem C8_control_dispatch (s : SessionSt) (d : List Nat) (p : PtyModel)
    (b : Nat) (rest : List Nat) :
    (s.pty = none →
      loopStep s ⟨MsgTypeControl, d⟩ = (s, [.sentError .noPty])) ∧
    (s.pty = some p →
      loopStep s ⟨MsgTypeControl, []⟩ = (s, [.sentError .badControl])) ∧
    (s.pty = some p → p.closed = false → p.procPresent = true →
      loopStep s ⟨MsgTypeControl, b :: rest⟩ =
        ({ s with pty := some { p with signals := p.signals ++ [b] } }, [])) := by
  refine ⟨fun h => ?_, fun h => ?_, fun h hc hpr => ?_⟩
  · simp [loopStep, dispatchMessage, MsgTypeData, MsgTypeResize, MsgTypeControl,
      MsgTypeHeartbeat, MsgTypeClose, handleControl, h]
  · simp [loopStep, dispatchMessage, MsgTypeData, MsgTypeResize, MsgTypeControl,
      MsgTypeHeartbeat, MsgTypeClose, handleControl, h]
  · simp [loopStep, dispatchMessage, MsgTypeData, MsgTypeResize, MsgTypeControl,
      MsgTypeHeartbeat, MsgTypeClose, handleControl, h, ptySendSignal, hc, hpr]

/-- Witness for `C8_control_dispatch` at concrete sessions and frames. -/
theorem C8_control_dispatch_witness :
    loopStep initSession ⟨MsgTypeControl, [2]⟩ =
      (initSession, [.sentError .noPty]) ∧
    loopStep livePtySession ⟨MsgTypeControl, []⟩ =
      (livePtySession, [.sentError .badControl]) ∧
    loopStep livePtySession ⟨MsgTypeControl, [2, 9]⟩ =
      ({ livePtySession with pty := some { newPTY with signals := newPTY.signals ++ [2] } }, []) :=
  ⟨(C8_control_dispatch initSession [2] newPTY 2 [9]).1 rfl,
   (C8_control_dispatch livePtySession [2] newPTY 2 [9]).2.1 rfl,
   (C8_control_dispatch livePtySession [2] newPTY 2 [9]).2.2 rfl rfl rfl⟩

/-- The reader loop forwards DATA payloads to the PTY in order: helper
induction for the peer-to-PTY direction of C9. -/
theorem processLoop_data_writes (ds : List (List Nat)) :
    ∀ (s : SessionSt) (p : PtyModel), s.pty = some p → s.cancelled = false →
      p.closed = false → p.underlyingWriteErr = false →
      (processLoop s (ds.map fun d => ⟨MsgTypeData, d⟩)).1.pty =
        some { p with written := p.written ++ ds.flatten } := by
  induction ds with
  | nil =>
    intro s p hp hcan hc hw
    simp only [List.map_nil, processLoop, List.flatten_nil, List.append_nil]
    exact hp
  | cons d ds ih =>
    intro s p hp hcan hc hw
    have hstep : loopStep s ⟨MsgTypeData, d⟩ =
        ({ s with pty := some { p with written := p.written ++ d } }, []) := by
      simp [loopStep, dispatchMessage, MsgTypeData, handleData, ensurePty, hp,
        ptyWrite, hc, hw]
    have hrec := ih { s with pty := some { p with written := p.written ++ d } }
      { p with written := p.written ++ d } rfl hcan hc hw
    calc (processLoop s ((d :: ds).map fun x => ⟨MsgTypeData, x⟩)).1.pty
        = (processLoop { s with pty := some { p with written := p.written ++ d } }
            (ds.map fun x => ⟨MsgTypeData, x⟩)).1.pty := by
          simp [processLoop, hcan, hstep]
      _ = some { p with written := p.written ++ (d :: ds).flatten } := by
          rw [hrec]
          simp [List.append_assoc]

/-- Unfolding step for `dataPayloads` on a DATA frame effect. -/
theorem dataPayloads_data_cons (bs : List Nat) (effs : List Eff) :
    dataPayloads (.sentData bs :: effs) = bs :: dataPayloads effs := rfl

/-- The pump forwards PTY reads to the peer in order: helper induction for
the PTY-to-peer direction of C9.  Empty reads produce no frame but also
contribute nothing to the concatenation. -/
theorem pump_data_concat (ps : List (List Nat)) (s : SessionSt) (p : PtyModel)
    (hcan : s.cancelled = false) (hc : p.closed = false) :
    (dataPayloads (pumpLoop s p (ps.map Except.ok)).2).flatten = ps.flatten := by
  induction ps with
  | nil => simp [pumpLoop, dataPayloads]
  | cons bs ps ih =>
    by_cases hbs : 0 < bs.length
    · have hstep : pumpLoop s p ((bs :: ps).map Except.ok) =
          ((pumpLoop s p (ps.map Except.ok)).1,
            .sentData bs :: (pumpLoop s p (ps.map Except.ok)).2) := by
        simp [pumpLoop, hcan, ptyRead, hc, hbs]
      rw [hstep, dataPayloads_data_cons, List.flatten_cons, List.flatten_cons, ih]
    · have hnil : bs = [] := List.length_eq_zero.mp (by omega)
      subst hnil
      have hstep : pumpLoop s p (([] :: ps : List (List Nat)).map Except.ok) =
          pumpLoop s p (ps.map Except.ok) := by
        simp [pumpLoop, hcan, ptyRead, hc]
      rw [hstep, ih, List.flatten_cons, List.nil_append]

/-- Claim C9: per-direction byte order is preserved.  For a sequence of
DATA frames processed by the reader loop of a session with a live PTY, the
PTY master receives exactly the concatenation of the payloads in order;
for a sequence of successful PTY reads, the peer receives DATA frames
whose payloads concatenate to the reads in order. -/
theorem C9_per_direction_order :
    (∀ (s : SessionSt) (p : PtyModel) (ds : List (List Nat)),
      s.pty = some p → s.cancelled = false → p.closed = false →
      p.underlyingWriteErr = false →
      (processLoop s (ds.map fun d => ⟨MsgTypeData, d⟩)).1.pty =
        some { p with written := p.written ++ ds.flatten }) ∧
    (∀ (s : SessionSt) (p : PtyModel) (ps : List (List Nat)),
      s.pty = some p → s.cancelled = false → p.closed = false →
      (dataPayloads (readFromPTY s (ps.map Except.ok)).2).flatten = ps.flatten) := by
  constructor
  · intro s p ds hp hcan hc hw
    exact processLoop_data_writes ds s p hp hcan hc hw
  · intro s p ps hp hcan hc
    simp only [readFromPTY, hp]
    exact pump_data_concat ps s p hcan hc

/-- Witness for `C9_per_direction_order` at concrete frame and read
sequences. -/
theorem C9_per_direction_order_witness :
    (processLoop livePtySession
      ([[104], [105, 106]].map fun d => ⟨MsgTypeData, d⟩)).1.pty =
      some { newPTY with written := newPTY.written ++ [[104], [105, 106]].flatten } ∧
    (dataPayloads (readFromPTY livePtySession
      ([[10], [], [11]].map Except.ok)).2).flatten = [[10], [], [11]].flatten :=
  ⟨C9_per_direction_order.1 livePtySession newPTY [[104], [105, 106]] rfl rfl rfl rfl,
   C9_per_direction_order.2 livePtySession newPTY [[10], [], [11]] rfl rfl rfl⟩

/-- Claim C10, counterexample: this byte string has length 65536, which is
at least 3 plus its little-endian length field 65533, so by the claim
decoding must succeed with the 65533 payload bytes; instead decoding
panics on the uint16 wrap of 3 + 65533. -/
theorem C10_long_declared_length_panics :
    unmarshalMessage (1 :: 253 :: 255 :: bigPayload) = .panic ∧
    3 + (253 + 256 * 255) ≤ (1 :: 253 :: 255 :: bigPayload).length := by
  constructor
  · simp only [unmarshalMessage]
    have h0 : (3 + (253 + 256 * 255)) % 65536 = 0 := by norm_num
    rw [h0, if_neg (Nat.not_lt_zero _), if_pos (by norm_num)]
  · rw [List.length_cons, List.length_cons, List.length_cons, bigPayload_length]

/-- Claim C10, amended: prefix-based decoding holds whenever the declared
length L additionally satisfies L ≤ 65532 (so 3 + L does not wrap in
uint16): for every byte string of length at least 3 + L, decoding succeeds
and returns exactly the L bytes at offsets 3..3+L, silently ignoring any
trailing bytes. -/
theorem C10_prefix_decode (t l0 l1 : Nat) (rest : List Nat)
    (h1 : l0 + 256 * l1 ≤ 65532) (h2 : l0 + 256 * l1 ≤ rest.length) :
    unmarshalMessage (t :: l0 :: l1 :: rest) =
      .ok ⟨t, rest.take (l0 + 256 * l1)⟩ := by
  have hm : (3 + (l0 + 256 * l1)) % 65536 = 3 + (l0 + 256 * l1) :=
    Nat.mod_eq_of_lt (by omega)
  simp only [unmarshalMessage, hm]
  rw [if_neg (by omega), if_neg (by omega)]
  simp

/-- Witness for `C10_prefix_decode`: a frame with an unknown type octet
and two trailing bytes decodes to the two-byte payload. -/
theorem C10_prefix_decode_witness :
    unmarshalMessage (9 :: 2 :: 0 :: [5, 6, 7]) = .ok ⟨9, [5, 6]⟩ :=
  C10_prefix_decode 9 2 0 [5, 6, 7] (by norm_num) (by norm_num)

end WebConsole
